import Mathlib

/-!
Verification of the AIDevOS Durable Object orchestration core
(`src/orchestration/durable_objects.py` backed by the in-memory data store of
`src/orchestration/database.py`).

The Python code is shallowly embedded: objects and the data store become
immutable values threaded through the operations, `await` points are ordinary
function calls (concurrency for the registry is modelled separately by an
explicit interleaving semantics), Python dicts become association lists,
timestamps become `Nat` clock values passed in by the caller, raised
exceptions become `Except.error` / explicit error components, and handler
code (which the core treats as opaque) is a function parameter.
-/

namespace AidevOS

/-! ## Python dict primitives (string-keyed association lists) -/

/-- Python `d.get(k)` / `d[k]` on a dict. -/
def dictGet {α : Type} (d : List (String × α)) (k : String) : Option α :=
  match d with
  | [] => none
  | (k', v) :: rest => if k' = k then some v else dictGet rest k

/-- Python `k in d` on a dict. -/
def dictContains {α : Type} (d : List (String × α)) (k : String) : Bool :=
  (dictGet d k).isSome

/-- Python `d[k] = v` on a dict (insert or overwrite). -/
def dictSet {α : Type} (d : List (String × α)) (k : String) (v : α) :
    List (String × α) :=
  match d with
  | [] => [(k, v)]
  | (k', v') :: rest =>
    if k' = k then (k, v) :: rest else (k', v') :: dictSet rest k v

/-- Python `del d[k]` on a dict. -/
def dictDel {α : Type} (d : List (String × α)) (k : String) :
    List (String × α) :=
  match d with
  | [] => []
  | (k', v) :: rest =>
    if k' = k then dictDel rest k else (k', v) :: dictDel rest k

/-! ## Data store records (`database.DurableObject`) and
`database.InMemoryDataStore` -/

/-- The persisted record, `database.DurableObject` (a `Model`). -/
structure DurableObjectRec (σ : Type) where
  id : String
  name : String
  object_type : String
  state : σ
  project_id : String
  version : String
  status : String
  created_at : Nat
  updated_at : Nat
  last_activity : Nat

/-- The backing dict `InMemoryDataStore._store` of `durable_object_store`. -/
abbrev Store (σ : Type) := List (String × DurableObjectRec σ)

namespace InMemoryDataStore

/-- Model of `InMemoryDataStore.read`: `self._store.get(id)`. -/
def read {σ : Type} (s : Store σ) (id : String) : Option (DurableObjectRec σ) :=
  dictGet s id

/-- Model of `InMemoryDataStore.update`: replaces the item (stamping `updated_at`)
only when `id` is already present; otherwise a no-op returning `None`. -/
def update {σ : Type} (s : Store σ) (id : String) (item : DurableObjectRec σ)
    (now : Nat) : Store σ × Option (DurableObjectRec σ) :=
  if dictContains s id then
    let item' := { item with updated_at := now }
    (dictSet s id item', some item')
  else
    (s, none)

/-- Model of `InMemoryDataStore.delete`: removes the item if present, returns
whether it was deleted. -/
def delete {σ : Type} (s : Store σ) (id : String) : Store σ × Bool :=
  if dictContains s id then (dictDel s id, true) else (s, false)

end InMemoryDataStore

/-! ## Responses and handlers -/

/-- The values the request path returns to callers: Python `None`, an
`{"error": msg}` dict, or an opaque success payload. -/
inductive PyVal where
  | none
  | errDict (msg : String)
  | dict (payload : String)
deriving DecidableEq, Repr

/-- A subclass `handle_<action>` method: takes the request `data` and the
current state, and either raises (`Except.error` carries `str(e)`) or
returns the new state together with its response. -/
abbrev Handler (σ : Type) := String → σ → Except String (σ × PyVal)

/-- A callback registered via `register_event_handler`: takes the current
state and either raises or returns the new state. -/
abbrev EventHandler (σ : Type) := σ → Except String σ

/-! ## `BaseDurableObject` -/

/-- A live durable-object instance. `handlers` is the attribute surface of
subclass `handle_<action>` methods, keyed by action name;
`event_handlers` is `self._event_handlers`. -/
structure BaseDurableObject (σ : Type) where
  object_id : String
  project_id : String
  name : String
  state : σ
  status : String
  version : String
  created_at : Nat
  updated_at : Nat
  last_activity : Nat
  className : String
  handlers : String → Option (Handler σ)
  event_handlers : String → List (EventHandler σ)

/-- The admissible values of the `status` property setter. -/
def validStatuses : List String :=
  ["initializing", "active", "idle", "hibernating", "terminating"]

/-- The `status` property setter: raises `ValueError` (the `Option String`
component) on an invalid value, leaving the object untouched; otherwise
stores the value and stamps `_updated_at`. -/
def setStatus {σ : Type} (o : BaseDurableObject σ) (v : String) (now : Nat) :
    BaseDurableObject σ × Option String :=
  if v ∈ validStatuses then
    ({ o with status := v, updated_at := now }, Option.none)
  else
    (o, some ("Invalid status: " ++ v))

/-- The record `_save_state` builds before storing (constructor arguments
plus the explicitly assigned fields). -/
def recordOf {σ : Type} (o : BaseDurableObject σ) (now : Nat) :
    DurableObjectRec σ :=
  { id := o.object_id, name := o.name, object_type := o.className,
    state := o.state, project_id := o.project_id, version := o.version,
    status := o.status, created_at := o.created_at, updated_at := now,
    last_activity := o.last_activity }

/-- Model of `BaseDurableObject._save_state`: build the record and call
`durable_object_store.update` (whose result is discarded). -/
def saveState {σ : Type} (o : BaseDurableObject σ) (s : Store σ) (now : Nat) :
    Store σ :=
  (InMemoryDataStore.update s o.object_id (recordOf o now) now).1

/-- Model of `BaseDurableObject.initialize`: set status to `"active"` (always a valid
value, so the setter cannot raise here) and save. -/
def initializeObject {σ : Type} (o : BaseDurableObject σ) (s : Store σ) (now : Nat) :
    BaseDurableObject σ × Store σ :=
  let o' := (setStatus o "active" now).1
  (o', saveState o' s now)

/-- Model of `BaseDurableObject.hibernate`: set status to `"hibernating"` and save. -/
def hibernate {σ : Type} (o : BaseDurableObject σ) (s : Store σ) (now : Nat) :
    BaseDurableObject σ × Store σ :=
  let o' := (setStatus o "hibernating" now).1
  (o', saveState o' s now)

/-- Model of `BaseDurableObject.terminate`: set status to `"terminating"` and save. -/
def terminate {σ : Type} (o : BaseDurableObject σ) (s : Store σ) (now : Nat) :
    BaseDurableObject σ × Store σ :=
  let o' := (setStatus o "terminating" now).1
  (o', saveState o' s now)

/-- Model of `BaseDurableObject._load_state`: re-read the record and, when present,
overwrite state, `_status` (directly, bypassing the setter), version and
timestamps from it. -/
def loadState {σ : Type} (o : BaseDurableObject σ) (s : Store σ) :
    BaseDurableObject σ :=
  match InMemoryDataStore.read s o.object_id with
  | some db =>
    { o with
      state := db.state
      status := db.status
      version := db.version
      created_at := db.created_at
      updated_at := db.updated_at
      last_activity := db.last_activity }
  | Option.none => o

/-- The loop body of `handle_event`: run each registered handler for the
event type in order, catching (and merely logging) any exception. -/
def runEventHandlers {σ : Type} (hs : List (EventHandler σ)) (st : σ) : σ :=
  match hs with
  | [] => st
  | h :: rest =>
    match h st with
    | .ok st' => runEventHandlers rest st'
    | .error _ => runEventHandlers rest st

/-- Model of `BaseDurableObject.handle_event`: runs the handlers registered for
`event_type` (none when the type is absent from `_event_handlers`),
isolating each failure; returns Python `None`. -/
def handle_event {σ : Type} (o : BaseDurableObject σ) (event_type : String) :
    BaseDurableObject σ × PyVal :=
  ({ o with state := runEventHandlers (o.event_handlers event_type) o.state },
   PyVal.none)

/-! ## `process_request` -/

/-- Model of `hasattr(self, "handle_" + action) and callable(...)`: the attribute
surface consists of the subclass `handle_<action>` methods plus the
base-class method `handle_event`. -/
def hasHandlerAttr {σ : Type} (o : BaseDurableObject σ) (action : String) :
    Bool :=
  (o.handlers action).isSome || ("handle_" ++ action = "handle_event")

/-- Model of `getattr(self, "handle_" + action)`: subclass methods shadow the
base class; the base contributes only `handle_event`, whose bound form
treats the request `data` as the event type and returns Python `None`. -/
def getHandlerAttr {σ : Type} (o : BaseDurableObject σ) (action : String) :
    Option (Handler σ) :=
  match o.handlers action with
  | some h => some h
  | Option.none =>
    if "handle_" ++ action = "handle_event" then
      some (fun data st =>
        .ok (runEventHandlers (o.event_handlers data) st, PyVal.none))
    else
      Option.none

/-- The `try` block of `process_request`: resolve `handle_<action>`;
run it; on success save state and return its response; a raised exception
is caught and becomes `{"error": str(e)}`; a missing handler yields
`{"error": "Unknown action: ..."}`. -/
def dispatchRequest {σ : Type} (o : BaseDurableObject σ) (s : Store σ)
    (action : String) (data : String) (now : Nat) :
    BaseDurableObject σ × Store σ × PyVal :=
  match getHandlerAttr o action with
  | some h =>
    match h data o.state with
    | .ok (st', resp) =>
      let o' := { o with state := st' }
      (o', saveState o' s now, resp)
    | .error e => (o, s, PyVal.errDict e)
  | Option.none => (o, s, PyVal.errDict ("Unknown action: " ++ action))

/-- Model of `BaseDurableObject.process_request`: stamp `_last_activity`; wake a
hibernating object via `initialize`; reject any other non-active status
with an error dict; otherwise dispatch. -/
def process_request {σ : Type} (o : BaseDurableObject σ) (s : Store σ)
    (action : String) (data : String) (now : Nat) :
    BaseDurableObject σ × Store σ × PyVal :=
  let o₁ := { o with last_activity := now }
  if o₁.status = "hibernating" then
    let (o₂, s₂) := initializeObject o₁ s now
    dispatchRequest o₂ s₂ action data now
  else if o₁.status ≠ "active" then
    (o₁, s,
     PyVal.errDict ("Object is " ++ o₁.status ++
       " and cannot process requests"))
  else
    dispatchRequest o₁ s action data now

/-! ## `DurableObjectRegistry` -/

/-- A registered object type: its class name (`self.__class__.__name__`)
and its `handle_<action>` method table. -/
structure ObjectClass (σ : Type) where
  className : String
  handlers : String → Option (Handler σ)

/-- Model of `object_class(object_id=..., project_id=..., name=..., state=...)`:
the `BaseDurableObject.__init__` constructor. -/
def mkInstance {σ : Type} (c : ObjectClass σ) (object_id : String)
    (project_id : String) (name : String) (st : σ) (now : Nat) :
    BaseDurableObject σ :=
  { object_id := object_id, project_id := project_id, name := name,
    state := st, status := "initializing", version := "1.0.0",
    created_at := now, updated_at := now, last_activity := now,
    className := c.className, handlers := c.handlers,
    event_handlers := fun _ => [] }

/-- The registry singleton's mutable fields: `_object_types` and
`_active_objects`. -/
structure Registry (σ : Type) where
  object_types : List (String × ObjectClass σ)
  active_objects : List (String × BaseDurableObject σ)

/-- Model of `DurableObjectRegistry.create_object`: `ValueError` on an unknown type;
otherwise construct with a fresh id (the `uuid4` value is a parameter),
initialize, cache, and return the id. -/
def create_object {σ : Type} (r : Registry σ) (s : Store σ)
    (type_name : String) (project_id : String) (name : String)
    (initial_state : σ) (fresh_id : String) (now : Nat) :
    Except String (Registry σ × Store σ × String) :=
  match dictGet r.object_types type_name with
  | Option.none => .error ("Unknown Durable Object type: " ++ type_name)
  | some c =>
    let ob := mkInstance c fresh_id project_id name initial_state now
    let (ob', s') := initializeObject ob s now
    .ok ({ r with active_objects := dictSet r.active_objects fresh_id ob' },
         s', fresh_id)

/-- The part of `get_object` that runs after the cache check (i.e. after
the `await durable_object_store.read` suspension point): load the record,
resolve its type, construct, `_load_state`, wake if hibernating, cache.
The `Bool` reports whether an instance was constructed. -/
def get_object_resume {σ : Type} (r : Registry σ) (s : Store σ)
    (object_id : String) (now : Nat) :
    Registry σ × Store σ × Option (BaseDurableObject σ) × Bool :=
  match InMemoryDataStore.read s object_id with
  | Option.none => (r, s, Option.none, false)
  | some db =>
    match dictGet r.object_types db.object_type with
    | Option.none => (r, s, Option.none, false)
    | some c =>
      let ob := mkInstance c object_id db.project_id db.name db.state now
      let ob₁ := loadState ob s
      let (ob₂, s₂) :=
        if ob₁.status = "hibernating" then initializeObject ob₁ s now
        else (ob₁, s)
      ({ r with active_objects := dictSet r.active_objects object_id ob₂ },
       s₂, some ob₂, true)

/-- Model of `DurableObjectRegistry.get_object`: return the cached instance, else
hydrate from the store. -/
def get_object {σ : Type} (r : Registry σ) (s : Store σ) (object_id : String)
    (now : Nat) : Registry σ × Store σ × Option (BaseDurableObject σ) :=
  match dictGet r.active_objects object_id with
  | some ob => (r, s, some ob)
  | Option.none =>
    let (r', s', res, _) := get_object_resume r s object_id now
    (r', s', res)

/-- Model of `DurableObjectRegistry.delete_object`: resolve via `get_object`; if
absent return `false`; else `terminate`, evict from the cache, delete the
record, return `true`. -/
def delete_object {σ : Type} (r : Registry σ) (s : Store σ)
    (object_id : String) (now : Nat) : Registry σ × Store σ × Bool :=
  match get_object r s object_id now with
  | (r₁, s₁, Option.none) => (r₁, s₁, false)
  | (r₁, s₁, some ob) =>
    let (_, s₂) := terminate ob s₁ now
    let r₂ := { r₁ with active_objects := dictDel r₁.active_objects object_id }
    let s₃ := (InMemoryDataStore.delete s₂ object_id).1
    (r₂, s₃, true)

/-! ## `DurableObjectRouter` -/

/-- Model of `DurableObjectRouter.route_request`: resolve via the registry; not-found
becomes an error dict; otherwise forward to `process_request` (the
in-place mutation of the cached instance is modelled by writing the
updated object back into the cache). -/
def route_request {σ : Type} (r : Registry σ) (s : Store σ)
    (object_id : String) (action : String) (data : String) (now : Nat) :
    Registry σ × Store σ × PyVal :=
  match get_object r s object_id now with
  | (r₁, s₁, Option.none) =>
    (r₁, s₁, PyVal.errDict ("Object not found: " ++ object_id))
  | (r₁, s₁, some ob) =>
    let (ob', s₂, resp) := process_request ob s₁ action data now
    ({ r₁ with active_objects := dictSet r₁.active_objects object_id ob' },
     s₂, resp)

/-! ## `EventBus` -/

/-- The event bus singleton's subscription table `_subscriptions`
(event type → subscriber ids; the Python set is modelled as a list in
iteration order). -/
structure EventBus where
  subscriptions : List (String × List String)

/-- One iteration of the delivery loop in `EventBus.publish`: resolve the
subscriber via the registry (an unresolvable subscriber is skipped) and
invoke `handle_event`; the surrounding `try`/`except` keeps any failure
from escaping the loop. -/
def deliverOne {σ : Type} (r : Registry σ) (s : Store σ)
    (event_type : String) (subscriber_id : String) (now : Nat) :
    Registry σ × Store σ :=
  match get_object r s subscriber_id now with
  | (r₁, s₁, Option.none) => (r₁, s₁)
  | (r₁, s₁, some ob) =>
    let (ob', _) := handle_event ob event_type
    ({ r₁ with active_objects := dictSet r₁.active_objects subscriber_id ob' },
     s₁)

/-- The delivery loop of `EventBus.publish` over the subscriber set. -/
def deliverAll {σ : Type} (r : Registry σ) (s : Store σ)
    (event_type : String) (subs : List String) (now : Nat) :
    Registry σ × Store σ :=
  match subs with
  | [] => (r, s)
  | sub :: rest =>
    let (r₁, s₁) := deliverOne r s event_type sub now
    deliverAll r₁ s₁ event_type rest now

/-- Model of `EventBus.publish`: return immediately when the event type has no
subscription entry; otherwise deliver to every subscriber. -/
def publish {σ : Type} (b : EventBus) (r : Registry σ) (s : Store σ)
    (event_type : String) (now : Nat) : Registry σ × Store σ :=
  match dictGet b.subscriptions event_type with
  | Option.none => (r, s)
  | some subs => deliverAll r s event_type subs now

/-! ## Cooperative interleaving of concurrent `get_object` calls

`get_object` is a coroutine: `await durable_object_store.read` after the
cache check is a suspension point at which another task may run. A system
of tasks, each executing `get_object` on the same id, is modelled with a
program counter per task: `0` = not yet started, `1` = suspended at the
read after a cache miss, `2` = finished. `constructions` counts
constructor calls (`object_class(...)`), as in the spec's N-way test. -/

structure GetSystem (σ : Type) where
  reg : Registry σ
  store : Store σ
  target : String
  pcs : List Nat
  constructions : Nat

/-- Run task `i` up to its next suspension point (or to completion). At
pc `0` it performs the cache check of `get_object`; at pc `1` it resumes
with the remainder, `get_object_resume`. -/
def stepTask {σ : Type} (sys : GetSystem σ) (i : Nat) (now : Nat) :
    GetSystem σ :=
  match sys.pcs.get? i with
  | some 0 =>
    if dictContains sys.reg.active_objects sys.target then
      { sys with pcs := sys.pcs.set i 2 }
    else
      { sys with pcs := sys.pcs.set i 1 }
  | some 1 =>
    let (r', s', _, constructed) :=
      get_object_resume sys.reg sys.store sys.target now
    { sys with
      reg := r'
      store := s'
      pcs := sys.pcs.set i 2
      constructions := sys.constructions + (if constructed then 1 else 0) }
  | _ => sys

/-- Execute a schedule: a list of task indices, each entry running that
task until its next suspension point. -/
def runSchedule {σ : Type} (sys : GetSystem σ) (sched : List Nat)
    (now : Nat) : GetSystem σ :=
  match sched with
  | [] => sys
  | i :: rest => runSchedule (stepTask sys i now) rest now

/-! ## Concrete fixtures (a counter object over `σ := Nat`) -/

/-- A subclass with a `handle_increment` and a `handle_ping` method. -/
def counterClass : ObjectClass Nat :=
  { className := "Counter"
    handlers := fun a =>
      if a = "increment" then
        some (fun _ n => .ok (n + 1, PyVal.dict "incremented"))
      else if a = "ping" then
        some (fun _ n => .ok (n, PyVal.dict "pong"))
      else Option.none }

/-- A subclass whose `handle_boom` method always raises. -/
def faultyClass : ObjectClass Nat :=
  { className := "Faulty"
    handlers := fun a =>
      if a = "boom" then
        some (fun _ _ => .error "ZeroDivisionError: division by zero")
      else Option.none }

/-- A concrete live instance of `counterClass` in a chosen status. -/
def counterObj (status : String) (st : Nat) : BaseDurableObject Nat :=
  { object_id := "X", project_id := "p1", name := "c1", state := st,
    status := status, version := "1.0.0", created_at := 0, updated_at := 0,
    last_activity := 0, className := "Counter",
    handlers := counterClass.handlers, event_handlers := fun _ => [] }

/-- A concrete live instance of `faultyClass`. -/
def faultyObj (status : String) (st : Nat) : BaseDurableObject Nat :=
  { object_id := "F", project_id := "p1", name := "f1", state := st,
    status := status, version := "1.0.0", created_at := 0, updated_at := 0,
    last_activity := 0, className := "Faulty",
    handlers := faultyClass.handlers, event_handlers := fun _ => [] }

/-- A persisted record for the counter object. -/
def counterRec (status : String) (st : Nat) : DurableObjectRec Nat :=
  { id := "X", name := "c1", object_type := "Counter", state := st,
    project_id := "p1", version := "1.0.0", status := status,
    created_at := 0, updated_at := 0, last_activity := 0 }

/-- A registry that knows the `Counter` type and caches nothing. -/
def counterRegistry : Registry Nat :=
  { object_types := [("Counter", counterClass)], active_objects := [] }

/-! ## Concrete fixtures for the claims below -/

/-- The registry and store produced by
`create_object("Counter", "p1", "c1", 0)` with fresh id `"X"` against an
empty store. -/
def afterCreate : Registry Nat × Store Nat :=
  match create_object counterRegistry ([] : Store Nat) "Counter" "p1" "c1" 0
      "X" 0 with
  | .ok (r', s', _) => (r', s')
  | .error _ => (counterRegistry, [])

/-- A subscriber whose registered handler for event `"x"` raises. -/
def badSubscriber : BaseDurableObject Nat :=
  { object_id := "B", project_id := "p1", name := "bad", state := 0,
    status := "active", version := "1.0.0", created_at := 0,
    updated_at := 0, last_activity := 0, className := "Subscriber",
    handlers := fun _ => Option.none,
    event_handlers := fun t =>
      if t = "x" then [fun _ => .error "RuntimeError: subscriber failure"]
      else [] }

/-- A healthy subscriber whose handler for `"x"` increments its state. -/
def goodSubscriber : BaseDurableObject Nat :=
  { object_id := "G", project_id := "p1", name := "good", state := 0,
    status := "active", version := "1.0.0", created_at := 0,
    updated_at := 0, last_activity := 0, className := "Subscriber",
    handlers := fun _ => Option.none,
    event_handlers := fun t =>
      if t = "x" then [fun n => .ok (n + 1)] else [] }

/-- An event bus where `"x"` has a failing subscriber, an unresolvable
subscriber id, and a healthy subscriber — in that delivery order. -/
def busWithX : EventBus :=
  { subscriptions := [("x", ["B", "missing", "G"])] }

/-- The registry caching the two live subscribers. -/
def regSubscribers : Registry Nat :=
  { object_types := [],
    active_objects := [("B", badSubscriber), ("G", goodSubscriber)] }

/-- The status-vocabulary invariant on a live instance. -/
def StatusOK {σ : Type} (o : BaseDurableObject σ) : Prop :=
  o.status ∈ validStatuses

/-- Every persisted record carries a status from the vocabulary. -/
def StoreOK {σ : Type} (s : Store σ) : Prop :=
  ∀ p ∈ s, p.2.status ∈ validStatuses

/-- Every cached instance carries a status from the vocabulary. -/
def RegOK {σ : Type} (r : Registry σ) : Prop :=
  ∀ p ∈ r.active_objects, StatusOK p.2

/-- Two concurrent `get_object("X")` tasks against a registry with an empty
cache and a store holding X's record. -/
def twoGets : GetSystem Nat :=
  { reg := counterRegistry, store := [("X", counterRec "active" 7)],
    target := "X", pcs := [0, 0], constructions := 0 }

/-! ## Helper lemmas -/

theorem dictGet_dictSet_self {α : Type} (d : List (String × α)) (k : String)
    (v : α) : dictGet (dictSet d k v) k = some v := by
  induction d with
  | nil => simp [dictGet, dictSet]
  | cons p rest ih =>
    by_cases h : p.1 = k
    · simp [dictGet, dictSet, h]
    · simp only [dictSet, h, if_false]
      simpa [dictGet, h] using ih

theorem dictGet_dictDel_self {α : Type} (d : List (String × α)) (k : String) :
    dictGet (dictDel d k) k = Option.none := by
  induction d with
  | nil => rfl
  | cons p rest ih =>
    obtain ⟨k', v⟩ := p
    by_cases h : k' = k
    · simpa [dictDel, h] using ih
    · simp [dictDel, dictGet, h, ih]

theorem dictGet_mem {α : Type} {d : List (String × α)} {k : String} {v : α}
    (h : dictGet d k = some v) : (k, v) ∈ d := by
  induction d with
  | nil => simp [dictGet] at h
  | cons p rest ih =>
    obtain ⟨k', v'⟩ := p
    by_cases hk : k' = k
    · simp only [dictGet, hk, if_true, Option.some.injEq] at h
      subst hk
      subst h
      exact List.mem_cons_self _ _
    · simp only [dictGet, hk, if_false] at h
      exact List.mem_cons_of_mem _ (ih h)

theorem read_after_store_delete {σ : Type} (s : Store σ) (id : String) :
    InMemoryDataStore.read (InMemoryDataStore.delete s id).1 id =
      Option.none := by
  unfold InMemoryDataStore.delete
  by_cases h : dictContains s id = true
  · simp [h, InMemoryDataStore.read, dictGet_dictDel_self]
  · rw [if_neg h]
    simp only [dictContains, Option.isSome] at h
    simp only [InMemoryDataStore.read]
    cases hg : dictGet s id with
    | none => rfl
    | some v => rw [hg] at h; simp at h

/-- The `dispatchRequest` step never changes the object's status. -/
theorem dispatchRequest_status {σ : Type} (o : BaseDurableObject σ)
    (s : Store σ) (action data : String) (now : Nat) :
    (dispatchRequest o s action data now).1.status = o.status := by
  unfold dispatchRequest
  split
  · split
    · rfl
    · rfl
  · rfl

/-- The `initialize` hook always leaves the object `"active"`. -/
theorem initializeObject_status {σ : Type} (o : BaseDurableObject σ)
    (s : Store σ) (now : Nat) :
    (initializeObject o s now).1.status = "active" := by
  simp [initializeObject, setStatus, validStatuses]

/-- Stamping `_last_activity` does not change the resolved handler. -/
theorem getHandlerAttr_set_last_activity {σ : Type} (o : BaseDurableObject σ)
    (now : Nat) (a : String) :
    getHandlerAttr { o with last_activity := now } a = getHandlerAttr o a :=
  rfl

/-- On an active object, `process_request` is exactly the dispatch step
(after stamping `_last_activity`). -/
theorem process_request_active {σ : Type} (o : BaseDurableObject σ)
    (s : Store σ) (action data : String) (now : Nat)
    (hst : o.status = "active") :
    process_request o s action data now =
      dispatchRequest { o with last_activity := now } s action data now := by
  simp only [process_request]
  rw [if_neg (by simp [hst]), if_neg (by simp [hst])]

/-! ## Claim C4 -/

/-- C4: a request against a terminating (or "terminated") object returns the
invalid-state error dict, does not wake the object, and leaves its `state`,
its status and the persistence store unchanged (in memory only
`_last_activity` is stamped). -/
theorem process_request_terminating_invalid_state {σ : Type}
    (o : BaseDurableObject σ) (s : Store σ) (action data : String) (now : Nat)
    (h : o.status = "terminating" ∨ o.status = "terminated") :
    process_request o s action data now =
      ({ o with last_activity := now }, s,
       PyVal.errDict ("Object is " ++ o.status ++
         " and cannot process requests")) ∧
    (process_request o s action data now).1.state = o.state ∧
    (process_request o s action data now).1.status = o.status ∧
    (process_request o s action data now).2.1 = s := by
  rcases h with h | h <;> simp [process_request, h]

/-- C4 witness at a concrete terminating counter object. -/
theorem process_request_terminating_invalid_state_witness :
    process_request (counterObj "terminating" 5) ([] : Store Nat) "ping" "d"
        7 =
      ({ counterObj "terminating" 5 with last_activity := 7 },
       ([] : Store Nat),
       PyVal.errDict ("Object is " ++ (counterObj "terminating" 5).status ++
         " and cannot process requests")) :=
  (process_request_terminating_invalid_state (counterObj "terminating" 5) []
    "ping" "d" 7 (Or.inl rfl)).1

/-! ## Claim C3 -/

/-- C3 counterexample: a request to an IDLE counter object is rejected with
an error dict — the handler is not executed and the object does not return
to ACTIVE, contradicting the claim. -/
theorem idle_request_rejected_counterexample :
    (process_request (counterObj "idle" 3) ([] : Store Nat) "ping" "d"
        1).2.2 =
      PyVal.errDict "Object is idle and cannot process requests" ∧
    (process_request (counterObj "idle" 3) ([] : Store Nat) "ping" "d"
        1).1.status = "idle" ∧
    (process_request (counterObj "idle" 3) ([] : Store Nat) "ping" "d"
        1).1.state = 3 :=
  ⟨rfl, rfl, rfl⟩

/-- C3 amended: `process_request` on an IDLE object does not execute the
handler and does not re-activate the object; it returns the error dict
`"Object is idle and cannot process requests"`, leaving object (bar
`_last_activity`) and store unchanged — only HIBERNATING objects are
woken. -/
theorem process_request_idle_rejected {σ : Type} (o : BaseDurableObject σ)
    (s : Store σ) (action data : String) (now : Nat)
    (h : o.status = "idle") :
    process_request o s action data now =
      ({ o with last_activity := now }, s,
       PyVal.errDict "Object is idle and cannot process requests") := by
  simp [process_request, h]

/-- C3 amended witness at a concrete idle counter object. -/
theorem process_request_idle_rejected_witness :
    process_request (counterObj "idle" 3) ([] : Store Nat) "ping" "d" 1 =
      ({ counterObj "idle" 3 with last_activity := 1 }, ([] : Store Nat),
       PyVal.errDict "Object is idle and cannot process requests") :=
  process_request_idle_rejected (counterObj "idle" 3) [] "ping" "d" 1 rfl

/-! ## Claim C5 -/

/-- C5 counterexample: a handler that raises
`ZeroDivisionError: division by zero` produces exactly that internal
exception text as the error message of the response, so the exception text
does cross the request boundary. -/
theorem handler_error_exposes_exception_text :
    (process_request (faultyObj "active" 0) ([] : Store Nat) "boom" "d"
        1).2.2 =
      PyVal.errDict "ZeroDivisionError: division by zero" :=
  rfl

/-- C5 amended: on a handler exception `process_request` does not persist,
leaves state and status unchanged, and returns an error dict whose message
is `str(e)` — the raised exception's own text (so the text is exposed to
the caller rather than hidden behind a machine-readable code). -/
theorem process_request_handler_error_spec {σ : Type}
    (o : BaseDurableObject σ) (s : Store σ) (action data : String)
    (now : Nat) (h : Handler σ) (e : String)
    (hst : o.status = "active") (hh : getHandlerAttr o action = some h)
    (he : h data o.state = .error e) :
    process_request o s action data now =
      ({ o with last_activity := now }, s, PyVal.errDict e) := by
  rw [process_request_active o s action data now hst]
  simp only [dispatchRequest, getHandlerAttr_set_last_activity, hh, he]

/-- C5 amended witness at the concrete faulty object. -/
theorem process_request_handler_error_spec_witness :
    process_request (faultyObj "active" 0) ([] : Store Nat) "boom" "d" 1 =
      ({ faultyObj "active" 0 with last_activity := 1 }, ([] : Store Nat),
       PyVal.errDict "ZeroDivisionError: division by zero") :=
  process_request_handler_error_spec (faultyObj "active" 0) [] "boom" "d" 1
    (fun _ _ => .error "ZeroDivisionError: division by zero")
    "ZeroDivisionError: division by zero" rfl rfl rfl

/-! ## Claim C6 -/

/-- A `hibernate` call always leaves the object in status `"hibernating"`. -/
theorem hibernate_status {σ : Type} (o : BaseDurableObject σ) (s : Store σ)
    (now : Nat) : (hibernate o s now).1.status = "hibernating" := by
  simp [hibernate, setStatus, validStatuses]

/-- A `terminate` call always leaves the object in status `"terminating"`. -/
theorem terminate_status {σ : Type} (o : BaseDurableObject σ) (s : Store σ)
    (now : Nat) : (terminate o s now).1.status = "terminating" := by
  simp [terminate, setStatus, validStatuses]

/-- On a hibernating object, `process_request` is `initialize` followed by
the dispatch step. -/
theorem process_request_hibernating_eq {σ : Type} (o : BaseDurableObject σ)
    (s : Store σ) (action data : String) (now : Nat)
    (h : o.status = "hibernating") :
    process_request o s action data now =
      (let p := initializeObject { o with last_activity := now } s now
       dispatchRequest p.1 p.2 action data now) := by
  simp only [process_request]
  rw [if_pos (by simp [h])]

/-- A request to a hibernating object leaves it active. -/
theorem process_request_hibernating_status {σ : Type}
    (o : BaseDurableObject σ) (s : Store σ) (action data : String)
    (now : Nat) (h : o.status = "hibernating") :
    (process_request o s action data now).1.status = "active" := by
  rw [process_request_hibernating_eq o s action data now h]
  show (dispatchRequest (initializeObject { o with last_activity := now } s
    now).1 (initializeObject { o with last_activity := now } s now).2 action
    data now).1.status = "active"
  rw [dispatchRequest_status]
  exact initializeObject_status _ _ _

/-- C6: a request to a HIBERNATING object first re-runs `initialize` —
which sets the status to ACTIVE and flushes state to the store — and only
then dispatches the action; hence the object ends the call ACTIVE, and a
`hibernate` followed immediately by a `process_request` leaves the object
ACTIVE. -/
theorem process_request_wakes_hibernating {σ : Type}
    (o : BaseDurableObject σ) (s : Store σ) (action data : String)
    (now now' : Nat) (h : o.status = "hibernating") :
    (process_request o s action data now =
      (let p := initializeObject { o with last_activity := now } s now
       dispatchRequest p.1 p.2 action data now)) ∧
    (initializeObject { o with last_activity := now } s now).1.status =
      "active" ∧
    (initializeObject { o with last_activity := now } s now).2 =
      saveState (initializeObject { o with last_activity := now } s now).1 s
        now ∧
    (process_request o s action data now).1.status = "active" ∧
    (process_request (hibernate o s now).1 (hibernate o s now).2 action data
      now').1.status = "active" :=
  ⟨process_request_hibernating_eq o s action data now h,
   initializeObject_status _ _ _,
   rfl,
   process_request_hibernating_status o s action data now h,
   process_request_hibernating_status _ _ action data now'
     (hibernate_status o s now)⟩

/-- C6 witness at a concrete hibernating counter object. -/
theorem process_request_wakes_hibernating_witness :
    (process_request (counterObj "hibernating" 2) ([] : Store Nat) "ping"
      "d" 1).1.status = "active" :=
  (process_request_wakes_hibernating (counterObj "hibernating" 2) [] "ping"
    "d" 1 2 rfl).2.2.2.1

/-! ## Claim C1 -/

/-- C1 (code bug): `create_object` never persists the initial record —
`_save_state` calls `durable_object_store.update`, which is a no-op for an
id that was never `create`d in the store — so after a successful create the
store holds no record for the new id, and a subsequent successful
`process_request` (here an increment routed through the router) also
persists nothing, while the in-memory cached state does change. -/
theorem create_object_persists_no_record :
    (create_object counterRegistry ([] : Store Nat) "Counter" "p1" "c1" 0
        "X" 0).map (fun t => (InMemoryDataStore.read t.2.1 "X", t.2.2)) =
      .ok (Option.none, "X") ∧
    (dictGet afterCreate.1.active_objects "X").isSome = true ∧
    (route_request afterCreate.1 afterCreate.2 "X" "increment" "d" 1).2 =
      (([] : Store Nat), PyVal.dict "incremented") ∧
    (dictGet (route_request afterCreate.1 afterCreate.2 "X" "increment" "d"
        1).1.active_objects "X").map (fun ob => ob.state) = some 1 :=
  ⟨rfl, rfl, rfl, rfl⟩

/-! ## Claim C7 -/

/-- Looking up an id in a registry whose cache just evicted it, against a
store that just deleted it, resolves nothing. -/
theorem get_object_after_evict {σ : Type} (r : Registry σ) (s : Store σ)
    (id : String) (now : Nat) :
    get_object { r with active_objects := dictDel r.active_objects id }
        (InMemoryDataStore.delete s id).1 id now =
      ({ r with active_objects := dictDel r.active_objects id },
       (InMemoryDataStore.delete s id).1, Option.none) := by
  unfold get_object
  rw [show dictGet ({ r with active_objects := dictDel r.active_objects id }
      : Registry σ).active_objects id = Option.none from
    dictGet_dictDel_self _ _]
  unfold get_object_resume
  rw [read_after_store_delete]

/-- Calling `delete_object` on an unresolvable id just reports `false`. -/
theorem delete_object_eq_none {σ : Type} {r r₁ : Registry σ}
    {s s₁ : Store σ} {id : String} {now : Nat}
    (h : get_object r s id now = (r₁, s₁, Option.none)) :
    delete_object r s id now = (r₁, s₁, false) := by
  unfold delete_object
  rw [h]

/-- Calling `delete_object` on a resolvable id terminates the instance, evicts it
from the cache and deletes its record. -/
theorem delete_object_eq_some {σ : Type} {r r₁ : Registry σ}
    {s s₁ : Store σ} {id : String} {now : Nat} {ob : BaseDurableObject σ}
    (h : get_object r s id now = (r₁, s₁, some ob)) :
    delete_object r s id now =
      ({ r₁ with active_objects := dictDel r₁.active_objects id },
       (InMemoryDataStore.delete (terminate ob s₁ now).2 id).1, true) := by
  unfold delete_object
  rw [h]

/-- C7: `delete_object` returns `true` exactly when `get_object` resolves an
instance; in that case the resolved instance is terminated (status
`"terminating"`) and the object is evicted from the cache and removed from
the store, so a second delete returns `false` (and, being a total function,
cannot raise) and a subsequent get resolves nothing. -/
theorem delete_object_spec {σ : Type} (r : Registry σ) (s : Store σ)
    (id : String) (now now' : Nat) :
    ((delete_object r s id now).2.2 =
      ((get_object r s id now).2.2).isSome) ∧
    (∀ ob, (get_object r s id now).2.2 = some ob →
      (terminate ob (get_object r s id now).2.1 now).1.status =
        "terminating" ∧
      delete_object r s id now =
        ({ (get_object r s id now).1 with
           active_objects :=
             dictDel (get_object r s id now).1.active_objects id },
         (InMemoryDataStore.delete
           (terminate ob (get_object r s id now).2.1 now).2 id).1,
         true)) ∧
    ((delete_object r s id now).2.2 = true →
      dictGet (delete_object r s id now).1.active_objects id =
        Option.none ∧
      InMemoryDataStore.read (delete_object r s id now).2.1 id =
        Option.none ∧
      (get_object (delete_object r s id now).1
        (delete_object r s id now).2.1 id now').2.2 = Option.none ∧
      (delete_object (delete_object r s id now).1
        (delete_object r s id now).2.1 id now').2.2 = false) := by
  rcases hget : get_object r s id now with ⟨r₁, s₁, res⟩
  cases res with
  | none =>
    rw [delete_object_eq_none hget]
    refine ⟨rfl, ?_, ?_⟩
    · intro ob hob
      simp at hob
    · intro hfalse
      simp at hfalse
  | some ob =>
    rw [delete_object_eq_some hget]
    refine ⟨rfl, ?_, ?_⟩
    · intro ob' hob'
      have hob : ob = ob' := by simpa using hob'
      subst hob
      exact ⟨terminate_status _ _ _, rfl⟩
    · intro _
      refine ⟨dictGet_dictDel_self _ _, read_after_store_delete _ _, ?_, ?_⟩
      · rw [get_object_after_evict]
      · rw [delete_object_eq_none
          (get_object_after_evict r₁ (terminate ob s₁ now).2 id now')]

/-- C7 witness: deleting the cached counter object succeeds, evicts it, and
a second delete returns `false`. -/
theorem delete_object_spec_witness :
    dictGet (delete_object
        { counterRegistry with
          active_objects := [("X", counterObj "active" 4)] }
        ([("X", counterRec "active" 4)] : Store Nat) "X" 1).1.active_objects
        "X" = Option.none ∧
    (delete_object (delete_object
        { counterRegistry with
          active_objects := [("X", counterObj "active" 4)] }
        ([("X", counterRec "active" 4)] : Store Nat) "X" 1).1
      (delete_object
        { counterRegistry with
          active_objects := [("X", counterObj "active" 4)] }
        ([("X", counterRec "active" 4)] : Store Nat) "X" 1).2.1 "X"
      2).2.2 = false := by
  have h := (delete_object_spec
    { counterRegistry with
      active_objects := [("X", counterObj "active" 4)] }
    ([("X", counterRec "active" 4)] : Store Nat) "X" 1 2).2.2 (by rfl)
  exact ⟨h.1, h.2.2.2⟩

/-! ## Claim C8 -/

/-- C8: publishing an event type with no subscription entry (or an empty
subscriber set) is a no-op returning registry and store unchanged — and
`publish` is a total function, so no exception reaches the publisher; and a
failing delivery is isolated: publishing `"x"` to a raising subscriber,
then an unresolvable id, then a healthy subscriber still invokes
`handle_event` on the healthy subscriber (its state is incremented) while
the raising subscriber's failure is swallowed (its state is unchanged). -/
theorem publish_isolation_spec :
    (∀ (σ : Type) (b : EventBus) (r : Registry σ) (s : Store σ)
       (evt : String) (now : Nat),
       (dictGet b.subscriptions evt = Option.none ∨
        dictGet b.subscriptions evt = some []) →
       publish b r s evt now = (r, s)) ∧
    (dictGet (publish busWithX regSubscribers ([] : Store Nat) "x"
        0).1.active_objects "G").map (fun ob => ob.state) = some 1 ∧
    (dictGet (publish busWithX regSubscribers ([] : Store Nat) "x"
        0).1.active_objects "B").map (fun ob => ob.state) = some 0 := by
  refine ⟨?_, rfl, rfl⟩
  intro σ b r s evt now h
  rcases h with h | h <;> simp [publish, h, deliverAll]

/-- C8 witness: publishing an unsubscribed event type changes nothing. -/
theorem publish_isolation_spec_witness :
    publish busWithX regSubscribers ([] : Store Nat) "unheard" 3 =
      (regSubscribers, ([] : Store Nat)) :=
  publish_isolation_spec.1 Nat busWithX regSubscribers [] "unheard" 3
    (Or.inl rfl)

/-! ## Claim C10 -/

/-- Prepending the `handle_` method prefix is injective. -/
theorem handle_prefix_cancel (a b : String) :
    ("handle_" ++ a = "handle_" ++ b) ↔ a = b := by
  constructor
  · intro h
    have hd := congrArg String.data h
    simp only [String.data_append] at hd
    exact String.ext (List.append_cancel_left hd)
  · intro h
    rw [h]

/-- The method name `handle_<action>` resolves to `handle_event` exactly for
the action string `"event"`. -/
theorem handle_action_eq_handle_event (a : String) :
    ("handle_" ++ a = "handle_event") ↔ a = "event" := by
  rw [show ("handle_event" : String) = "handle_" ++ "event" from rfl]
  exact handle_prefix_cancel a "event"

/-- C10: `process_request` dispatches by the presence of an attribute named
`handle_<action>`: the resolvable actions are exactly the subclass handler
table plus the inherited `handle_event`; an unresolvable action yields the
`Unknown action` error; and action `"event"` on a type without its own
`handle_event` dispatches to the inherited built-in — running the event
handlers registered for the event type passed as `data` and answering
Python `None` — instead of an `Unknown action` error. -/
theorem reflective_dispatch_spec {σ : Type} (o : BaseDurableObject σ)
    (s : Store σ) (action data : String) (now : Nat)
    (hst : o.status = "active") :
    ((getHandlerAttr o action).isSome = hasHandlerAttr o action) ∧
    (hasHandlerAttr o action = false ↔
      (o.handlers action = Option.none ∧ action ≠ "event")) ∧
    (hasHandlerAttr o action = false →
      process_request o s action data now =
        ({ o with last_activity := now }, s,
         PyVal.errDict ("Unknown action: " ++ action))) ∧
    (o.handlers "event" = Option.none → action = "event" →
      (process_request o s action data now).2.2 = PyVal.none ∧
      (process_request o s action data now).1.state =
        runEventHandlers (o.event_handlers data) o.state) := by
  have hiff := handle_action_eq_handle_event action
  refine ⟨?_, ?_, ?_, ?_⟩
  · unfold getHandlerAttr hasHandlerAttr
    cases hu : o.handlers action with
    | some h => rfl
    | none =>
      by_cases he : ("handle_" ++ action : String) = "handle_event"
      · simp [he]
      · simp [he]
  · unfold hasHandlerAttr
    rw [Bool.or_eq_false_iff]
    constructor
    · rintro ⟨h1, h2⟩
      refine ⟨?_, ?_⟩
      · cases hu : o.handlers action with
        | some h => rw [hu] at h1; simp at h1
        | none => rfl
      · intro hev
        rw [decide_eq_false_iff_not] at h2
        exact h2 (hiff.mpr hev)
    · rintro ⟨h1, h2⟩
      refine ⟨?_, ?_⟩
      · rw [h1]; rfl
      · rw [decide_eq_false_iff_not]
        intro hx
        exact h2 (hiff.mp hx)
  · intro hnone
    have hg : getHandlerAttr o action = Option.none := by
      unfold hasHandlerAttr at hnone
      rw [Bool.or_eq_false_iff] at hnone
      obtain ⟨h1, h2⟩ := hnone
      unfold getHandlerAttr
      cases hu : o.handlers action with
      | some h => rw [hu] at h1; simp at h1
      | none =>
        rw [decide_eq_false_iff_not] at h2
        rw [if_neg h2]
    rw [process_request_active o s action data now hst]
    simp only [dispatchRequest, getHandlerAttr_set_last_activity, hg]
  · intro huser hev
    subst hev
    have hg : getHandlerAttr o "event" =
        some (fun d st =>
          .ok (runEventHandlers (o.event_handlers d) st, PyVal.none)) := by
      unfold getHandlerAttr
      rw [huser, if_pos (hiff.mpr rfl)]
    rw [process_request_active o s "event" data now hst]
    simp only [dispatchRequest, getHandlerAttr_set_last_activity, hg]
    exact ⟨trivial, trivial⟩

/-- C10 witness: the counter type has no `handle_event` of its own, yet
action `"event"` is dispatched to the inherited built-in and returns
Python `None`. -/
theorem reflective_dispatch_spec_witness :
    (process_request (counterObj "active" 0) ([] : Store Nat) "event" "x"
      1).2.2 = PyVal.none :=
  ((reflective_dispatch_spec (counterObj "active" 0) [] "event" "x" 1
    rfl).2.2.2 rfl rfl).1

/-! ## Claim C9 -/

/-- Membership after a dict insertion. -/
theorem mem_dictSet {α : Type} {d : List (String × α)} {k : String} {v : α}
    {p : String × α} (h : p ∈ dictSet d k v) : p = (k, v) ∨ p ∈ d := by
  induction d with
  | nil => simpa [dictSet] using h
  | cons q rest ih =>
    by_cases hq : q.1 = k
    · simp only [dictSet, hq, if_true] at h
      rcases List.mem_cons.mp h with h | h
      · exact Or.inl h
      · exact Or.inr (List.mem_cons_of_mem _ h)
    · simp only [dictSet, hq, if_false] at h
      rcases List.mem_cons.mp h with h | h
      · exact Or.inr (by rw [h]; exact List.mem_cons_self _ _)
      · rcases ih h with h | h
        · exact Or.inl h
        · exact Or.inr (List.mem_cons_of_mem _ h)

/-- A `process_request` call ends active or with the status it started in. -/
theorem process_request_status_cases {σ : Type} (o : BaseDurableObject σ)
    (s : Store σ) (action data : String) (now : Nat) :
    (process_request o s action data now).1.status = "active" ∨
    (process_request o s action data now).1.status = o.status := by
  by_cases h1 : o.status = "hibernating"
  · exact Or.inl (process_request_hibernating_status o s action data now h1)
  · by_cases h2 : o.status = "active"
    · left
      rw [process_request_active o s action data now h2,
        dispatchRequest_status]
      exact h2
    · right
      simp only [process_request]
      rw [if_neg (by simp [h1]), if_pos (by simpa using h2)]

/-- The `_load_state` hook takes its status from the record it finds. -/
theorem loadState_status {σ : Type} (o : BaseDurableObject σ) (s : Store σ)
    {db : DurableObjectRec σ}
    (h : InMemoryDataStore.read s o.object_id = some db) :
    (loadState o s).status = db.status := by
  unfold loadState
  rw [h]

/-- The `get_object_resume` tail finds nothing when the record is absent. -/
theorem get_object_resume_no_record {σ : Type} {r : Registry σ}
    {s : Store σ} {id : String} (now : Nat)
    (hread : InMemoryDataStore.read s id = Option.none) :
    get_object_resume r s id now = (r, s, Option.none, false) := by
  unfold get_object_resume
  rw [hread]

/-- The `get_object_resume` tail finds nothing when the stored type is
unregistered. -/
theorem get_object_resume_no_type {σ : Type} {r : Registry σ} {s : Store σ}
    {id : String} {db : DurableObjectRec σ} (now : Nat)
    (hread : InMemoryDataStore.read s id = some db)
    (htype : dictGet r.object_types db.object_type = Option.none) :
    get_object_resume r s id now = (r, s, Option.none, false) := by
  unfold get_object_resume
  simp only [hread, htype]

/-- The `get_object_resume` tail on a present record of a registered type constructs
an instance (load, wake if hibernating, cache). -/
theorem get_object_resume_eq {σ : Type} {r : Registry σ} {s : Store σ}
    {id : String} {db : DurableObjectRec σ} {c : ObjectClass σ} (now : Nat)
    (hread : InMemoryDataStore.read s id = some db)
    (htype : dictGet r.object_types db.object_type = some c) :
    get_object_resume r s id now =
      (let ob₁ :=
        loadState (mkInstance c id db.project_id db.name db.state now) s
       let p :=
        if ob₁.status = "hibernating" then initializeObject ob₁ s now
        else (ob₁, s)
       ({ r with active_objects := dictSet r.active_objects id p.1 }, p.2,
        some p.1, true)) := by
  unfold get_object_resume
  simp only [hread, htype]

/-- Instances resolved by `get_object` keep the vocabulary invariant, given
valid cached instances and valid persisted records. -/
theorem get_object_status_ok {σ : Type} {r : Registry σ} {s : Store σ}
    {id : String} {now : Nat} {ob : BaseDurableObject σ}
    (hr : RegOK r) (hs : StoreOK s)
    (h : (get_object r s id now).2.2 = some ob) : StatusOK ob := by
  unfold get_object at h
  cases hc : dictGet r.active_objects id with
  | some cached =>
    rw [hc] at h
    have hco : cached = ob := by simpa using h
    subst hco
    exact hr _ (dictGet_mem hc)
  | none =>
    simp only [hc] at h
    cases hread : InMemoryDataStore.read s id with
    | none =>
      rw [get_object_resume_no_record now hread] at h
      simp at h
    | some db =>
      cases htype : dictGet r.object_types db.object_type with
      | none =>
        rw [get_object_resume_no_type now hread htype] at h
        simp at h
      | some c =>
        rw [get_object_resume_eq now hread htype] at h
        set ob₁ :=
          loadState (mkInstance c id db.project_id db.name db.state now) s
          with hob₁
        by_cases hib : ob₁.status = "hibernating"
        · simp only [hib, if_true] at h
          have hob : (initializeObject ob₁ s now).1 = ob := by simpa using h
          rw [← hob]
          unfold StatusOK
          rw [initializeObject_status]
          decide
        · simp only [hib, if_false] at h
          have hob : ob₁ = ob := by simpa using h
          rw [← hob]
          unfold StatusOK
          rw [hob₁,
            loadState_status (mkInstance c id db.project_id db.name db.state
              now) s (by exact hread)]
          exact hs _ (dictGet_mem hread)

/-- C9: the status vocabulary is exactly the five strings — there is no
"terminated" status — the property setter rejects any other value with a
`ValueError` and leaves the stored status unchanged, accepts exactly the
five, and every operation of the core keeps an instance's status inside
the vocabulary: construction starts at `"initializing"`, the lifecycle
hooks set `"active"` / `"hibernating"` / `"terminating"`,
`process_request` preserves validity, `_save_state` keeps the store's
records valid, and hydration via `get_object` yields a valid status
whenever the cache and the store are valid. -/
theorem status_vocabulary_spec {σ : Type} :
    ("terminated" ∉ validStatuses) ∧
    (∀ (o : BaseDurableObject σ) (v : String) (now : Nat),
      v ∉ validStatuses →
      setStatus o v now = (o, some ("Invalid status: " ++ v))) ∧
    (∀ (o : BaseDurableObject σ) (v : String) (now : Nat),
      v ∈ validStatuses →
      setStatus o v now =
        ({ o with status := v, updated_at := now }, Option.none)) ∧
    (∀ (c : ObjectClass σ) (id pid nm : String) (st : σ) (now : Nat),
      StatusOK (mkInstance c id pid nm st now)) ∧
    (∀ (o : BaseDurableObject σ) (s : Store σ) (now : Nat),
      StatusOK (initializeObject o s now).1 ∧
      StatusOK (hibernate o s now).1 ∧ StatusOK (terminate o s now).1) ∧
    (∀ (o : BaseDurableObject σ) (s : Store σ) (a d : String) (now : Nat),
      StatusOK o → StatusOK (process_request o s a d now).1) ∧
    (∀ (o : BaseDurableObject σ) (s : Store σ) (now : Nat),
      StatusOK o → StoreOK s → StoreOK (saveState o s now)) ∧
    (∀ (r : Registry σ) (s : Store σ) (id : String) (now : Nat)
       (ob : BaseDurableObject σ), RegOK r → StoreOK s →
      (get_object r s id now).2.2 = some ob → StatusOK ob) := by
  refine ⟨by decide, ?_, ?_, ?_, ?_, ?_, ?_, ?_⟩
  · intro o v now hv
    unfold setStatus
    rw [if_neg hv]
  · intro o v now hv
    unfold setStatus
    rw [if_pos hv]
  · intro c id pid nm st now
    show ("initializing" : String) ∈ validStatuses
    decide
  · intro o s now
    refine ⟨?_, ?_, ?_⟩
    · unfold StatusOK
      rw [initializeObject_status]
      decide
    · unfold StatusOK
      rw [hibernate_status]
      decide
    · unfold StatusOK
      rw [terminate_status]
      decide
  · intro o s a d now ho
    rcases process_request_status_cases o s a d now with h | h
    · unfold StatusOK
      rw [h]
      decide
    · unfold StatusOK
      rw [h]
      exact ho
  · intro o s now ho hs
    unfold saveState InMemoryDataStore.update
    by_cases hc : dictContains s o.object_id = true
    · rw [if_pos hc]
      intro p hp
      rcases mem_dictSet hp with hp | hp
      · rw [hp]
        exact ho
      · exact hs _ hp
    · rw [if_neg hc]
      exact hs
  · intro r s id now ob hr hs h
    exact get_object_status_ok hr hs h

/-- C9 witness: assigning `"terminated"` raises and leaves the object
unchanged; a request on a valid object keeps its status in the
vocabulary. -/
theorem status_vocabulary_spec_witness :
    setStatus (counterObj "active" 0) "terminated" 3 =
      (counterObj "active" 0, some ("Invalid status: " ++ "terminated")) ∧
    StatusOK (process_request (counterObj "active" 0) ([] : Store Nat)
      "ping" "d" 1).1 :=
  ⟨(status_vocabulary_spec (σ := Nat)).2.1 (counterObj "active" 0)
    "terminated" 3 (by decide),
   (status_vocabulary_spec (σ := Nat)).2.2.2.2.2.1 (counterObj "active" 0)
    [] "ping" "d" 1 (by show ("active" : String) ∈ validStatuses; decide)⟩

/-! ## Claim C2 -/

/-- C2 counterexample: under the interleaving in which both tasks pass the
(empty) cache check before either resumes from the store read, two
ObjectInstances are constructed for the same id — `get_object`'s
check-then-act straddles an `await` with no per-id lock. -/
theorem concurrent_get_constructs_two_instances :
    (runSchedule twoGets [0, 1, 0, 1] 5).constructions = 2 :=
  rfl

/-- C2 amended: when the two `get` calls are serialized — each runs to
completion before the other starts — exactly one instance is constructed;
the second call is served from the cache. -/
theorem serialized_get_constructs_one_instance {σ : Type} (r : Registry σ)
    (s : Store σ) (id : String) (db : DurableObjectRec σ)
    (c : ObjectClass σ) (now : Nat)
    (hcache : dictGet r.active_objects id = Option.none)
    (hread : InMemoryDataStore.read s id = some db)
    (htype : dictGet r.object_types db.object_type = some c) :
    (runSchedule ⟨r, s, id, [0, 0], 0⟩ [0, 0, 1, 1] now).constructions =
      1 := by
  have hres := get_object_resume_eq (r := r) now hread htype
  have h1 : stepTask (⟨r, s, id, [0, 0], 0⟩ : GetSystem σ) 0 now =
      ⟨r, s, id, [1, 0], 0⟩ := by
    simp only [stepTask, List.get?_cons_zero]
    simp [dictContains, hcache]
  have h2 : stepTask (⟨r, s, id, [1, 0], 0⟩ : GetSystem σ) 0 now =
      ⟨(get_object_resume r s id now).1,
       (get_object_resume r s id now).2.1, id, [2, 0], 1⟩ := by
    simp only [stepTask, List.get?_cons_zero]
    rw [hres]
    simp
  have hcon : dictContains
      (get_object_resume r s id now).1.active_objects id = true := by
    rw [hres]
    simp [dictContains, dictGet_dictSet_self]
  have h3 : stepTask (⟨(get_object_resume r s id now).1,
      (get_object_resume r s id now).2.1, id, [2, 0], 1⟩ : GetSystem σ) 1
      now =
      ⟨(get_object_resume r s id now).1,
       (get_object_resume r s id now).2.1, id, [2, 2], 1⟩ := by
    simp only [stepTask, List.get?_cons_succ, List.get?_cons_zero]
    simp [hcon]
  simp only [runSchedule]
  rw [h1, h2, h3]
  rfl

/-- C2 amended witness at the concrete counter fixture. -/
theorem serialized_get_constructs_one_instance_witness :
    (runSchedule ⟨counterRegistry, [("X", counterRec "active" 7)], "X",
      [0, 0], 0⟩ [0, 0, 1, 1] 5).constructions = 1 :=
  serialized_get_constructs_one_instance counterRegistry
    [("X", counterRec "active" 7)] "X" (counterRec "active" 7) counterClass
    5 rfl rfl rfl

end AidevOS
